import Mathlib

/-!
Shallow embedding of the MCP inspector's proxy core:

* the bidirectional forwarding engine of server/src/mcpProxy.ts,
* the transport factory of cli/src/transport.ts,
* the debug logger (debug-logger.ts) and the two debug transport wrappers.

Machine integers do not occur; JSON-RPC ids are strings or (mathematical)
integers as in the SDK schema.  Asynchronous sends are modeled by passing the
outcome of the underlying send as data into the handler, mirroring the
source's .catch continuations.
-/

/-- A JSON-RPC request id: a string or an integer (the SDK RequestIdSchema,
a union of string and integer). -/
inductive RequestId
  | str (s : String)
  | num (n : Int)
deriving DecidableEq, Repr

/-- A JSON value, used for the opaque params/result payloads of a message. -/
inductive JsonValue
  | null
  | bool (b : Bool)
  | num (n : Int)
  | str (s : String)
  | arr (elems : List JsonValue)
  | obj (fields : List (String × JsonValue))

/-- The model of a JavaScript Error value as far as the proxy inspects it:
only its message string is read by the forwarding engine. -/
structure TransportError where
  message : String
deriving DecidableEq, Repr

/-- The error member of a JSON-RPC error response.  In mcpProxy.ts the data
field holds the raw underlying Error value, modeled here by TransportError. -/
structure ErrorObject where
  code : Int
  message : String
  data : Option TransportError
deriving DecidableEq, Repr

/-- A JSON-RPC envelope as the proxy sees it: protocol version tag, optional
correlation id, optional method, and optional params/result/error members.
Absent JSON members are none. -/
structure JSONRPCMessage where
  jsonrpc : String
  id : Option RequestId
  method : Option String
  params : Option JsonValue
  result : Option JsonValue
  error : Option ErrorObject

/-- Embeds the SDK's isJSONRPCRequest (types.js): JSONRPCRequestSchema is a
strict object requiring jsonrpc equal to "2.0", an id and a method, and —
being strict — rejecting any result or error member. -/
def isJSONRPCRequest (m : JSONRPCMessage) : Bool :=
  m.jsonrpc == "2.0" && m.id.isSome && m.method.isSome
    && m.result.isNone && m.error.isNone

/-- The error response synthesized in mcpProxy.ts when the forward of a
request to the server fails: jsonrpc "2.0", the request's id, code -32001,
the failure's message, and the raw failure as data. -/
def errorResponseFor (m : JSONRPCMessage) (e : TransportError) : JSONRPCMessage :=
  { jsonrpc := "2.0"
    id := m.id
    method := none
    params := none
    result := none
    error := some { code := -32001, message := e.message, data := some e } }

/-- The mutable state closed over by mcpProxy: the two closed flags and the
reportedServerSession flag. -/
structure ProxyState where
  transportToClientClosed : Bool
  transportToServerClosed : Bool
  reportedServerSession : Bool
deriving DecidableEq, Repr

/-- All three flags start false (mcpProxy.ts lines 28-31). -/
def initialProxyState : ProxyState :=
  { transportToClientClosed := false
    transportToServerClosed := false
    reportedServerSession := false }

/-- One event delivered to a handler installed by mcpProxy.  A message event
carries the outcome of the forwarding send on the paired transport: none for
success, some e when that send rejected with e (the .catch continuation). -/
inductive ProxyEvent
  | clientMessage (m : JSONRPCMessage) (serverSendFailure : Option TransportError)
  | serverMessage (m : JSONRPCMessage) (clientSendFailure : Option TransportError)
  | clientClose
  | serverClose
  | clientError (e : TransportError)
  | serverError (e : TransportError)

/-- Observable effects of one handler run: envelopes passed to
transportToServer.send and transportToClient.send, number of invocations of
close() on each transport, and console.error diagnostics emitted. -/
structure ProxyEffects where
  sendsToServer : List JSONRPCMessage
  sendsToClient : List JSONRPCMessage
  closeServerCalls : Nat
  closeClientCalls : Nat
  diagnostics : Nat

/-- Effects of a handler that touched nothing. -/
def ProxyEffects.none : ProxyEffects :=
  { sendsToServer := []
    sendsToClient := []
    closeServerCalls := 0
    closeClientCalls := 0
    diagnostics := 0 }

/-- Concatenation of the effects of two consecutive handler runs. -/
def ProxyEffects.append (a b : ProxyEffects) : ProxyEffects :=
  { sendsToServer := a.sendsToServer ++ b.sendsToServer
    sendsToClient := a.sendsToClient ++ b.sendsToClient
    closeServerCalls := a.closeServerCalls + b.closeServerCalls
    closeClientCalls := a.closeClientCalls + b.closeClientCalls
    diagnostics := a.diagnostics + b.diagnostics }

/-- One step of the forwarding engine: the handler bodies of mcpProxy.ts.
serverSessionId models the transportToServer.sessionId property read by the
server-message handler.  The optional debug logger calls are modeled
separately (they are optional-chained, fire-and-forget, and never throw, see
the DebugLogger development below); here they contribute no control flow. -/
def proxyStep (serverSessionId : Option String) (s : ProxyState) :
    ProxyEvent → ProxyState × ProxyEffects
  | .clientMessage m failure =>
    match failure with
    | none => (s, { ProxyEffects.none with sendsToServer := [m] })
    | some e =>
      -- the .catch branch: synthesize an error response if the message was a
      -- request and the client side is not yet closed
      if isJSONRPCRequest m && !s.transportToClientClosed then
        (s, { ProxyEffects.none with
                sendsToServer := [m]
                sendsToClient := [errorResponseFor m e] })
      else
        (s, { ProxyEffects.none with sendsToServer := [m] })
  | .serverMessage m failure =>
    -- first-message session-id report (console.error), then forward
    let sessionDiag :=
      if !s.reportedServerSession && serverSessionId.isSome then 1 else 0
    let s1 := { s with reportedServerSession := true }
    match failure with
    | none => (s1, { ProxyEffects.none with
                       sendsToClient := [m], diagnostics := sessionDiag })
    | some _ => (s1, { ProxyEffects.none with
                         sendsToClient := [m], diagnostics := sessionDiag + 1 })
  | .clientClose =>
    if s.transportToServerClosed then
      (s, ProxyEffects.none)
    else
      ({ s with transportToClientClosed := true },
       { ProxyEffects.none with closeServerCalls := 1 })
  | .serverClose =>
    if s.transportToClientClosed then
      (s, ProxyEffects.none)
    else
      ({ s with transportToServerClosed := true },
       { ProxyEffects.none with closeClientCalls := 1 })
  | .clientError _ => (s, { ProxyEffects.none with diagnostics := 1 })
  | .serverError _ => (s, { ProxyEffects.none with diagnostics := 1 })

/-- Run of the forwarding engine over a sequence of events, accumulating the
effects in order. -/
def runProxy (serverSessionId : Option String) (s : ProxyState) :
    List ProxyEvent → ProxyState × ProxyEffects
  | [] => (s, ProxyEffects.none)
  | ev :: rest =>
    let step1 := proxyStep serverSessionId s ev
    let rest1 := runProxy serverSessionId step1.1 rest
    (rest1.1, step1.2.append rest1.2)

/-- Sum of the close() invocations on both transports recorded in one
effects record. -/
def closeCalls (eff : ProxyEffects) : Nat :=
  eff.closeServerCalls + eff.closeClientCalls

/-- The pair of closed flags of a proxy state. -/
def closedFlags (s : ProxyState) : Bool × Bool :=
  (s.transportToClientClosed, s.transportToServerClosed)

/-- A JSON-RPC response envelope from the client carrying a correlation id
but no method: answerable in the spec's sense, but not a request for
isJSONRPCRequest. -/
def responseEnvelope : JSONRPCMessage :=
  { jsonrpc := "2.0"
    id := some (.num 1)
    method := none
    params := none
    result := some .null
    error := none }

/-- A connection-refused failure of the server-facing send. -/
def econnRefused : TransportError := { message := "ECONNREFUSED" }

/-- A plain request envelope with id 1 and method x. -/
def requestEnvelope : JSONRPCMessage :=
  { jsonrpc := "2.0"
    id := some (.num 1)
    method := some "x"
    params := none
    result := none
    error := none }

/-- C1 (counterexample): the claim says a synthesized error response is sent
back if and only if the failed message carries a correlation id and the
client side is open.  The envelope responseEnvelope carries the correlation
id 1, the client side is open, the server-facing send fails with
ECONNREFUSED, and yet the handler sends zero responses to the client: the
code guards on isJSONRPCRequest (id and method), not on the presence of an
id alone. -/
theorem C1_counterexample :
    responseEnvelope.id.isSome = true
    ∧ initialProxyState.transportToClientClosed = false
    ∧ (proxyStep none initialProxyState
        (.clientMessage responseEnvelope (some econnRefused))).2.sendsToClient = [] :=
  ⟨rfl, rfl, rfl⟩

/-- C1 (amended): when the forward of a client message to the server fails,
exactly one error response — jsonrpc "2.0", the message's id, code -32001,
the failure's message — goes back to the client if and only if the message
is a JSON-RPC request (correlation id and method, no result/error member)
and the client side is not yet closed; otherwise, in particular for every
notification, zero responses are produced.  The handler also never mutates
the proxy state. -/
theorem C1_failed_forward_error_response (sid : Option String) (s : ProxyState)
    (m : JSONRPCMessage) (e : TransportError) :
    (proxyStep sid s (.clientMessage m (some e))).2.sendsToClient =
      (if isJSONRPCRequest m && !s.transportToClientClosed then
        [errorResponseFor m e] else [])
    ∧ (errorResponseFor m e).jsonrpc = "2.0"
    ∧ (errorResponseFor m e).id = m.id
    ∧ (errorResponseFor m e).error =
        some { code := -32001, message := e.message, data := some e }
    ∧ (proxyStep sid s (.clientMessage m (some e))).1 = s := by
  cases hb : isJSONRPCRequest m && !s.transportToClientClosed <;>
    exact ⟨by simp [proxyStep, hb, ProxyEffects.none], rfl, rfl, rfl, by simp [proxyStep, hb]⟩

/-- C2 (counterexample): the claim says a second onclose event from the side
that closed first is a no-op.  In the run client-close, server-close,
client-close the client side closed first, yet the third event invokes
close() on the server-facing transport a second time: the guard in the
client onclose handler tests transportToServerClosed, which the server
onclose handler never set because it returned early. -/
theorem C2_counterexample :
    (runProxy none initialProxyState
      [.clientClose, .serverClose, .clientClose]).2.closeServerCalls = 2 := rfl

/-- C2 (amended): when one side's onclose fires first, the paired
transport's close() is invoked exactly once and the resulting onclose of the
paired side does not re-close the first side; a repeated onclose from the
paired (second) side is a no-op, but a second onclose event from the side
that closed first invokes close() on the paired transport again — in both
orientations. -/
theorem C2_close_propagation :
    (runProxy none initialProxyState [.clientClose]).2.closeServerCalls = 1
    ∧ (runProxy none initialProxyState [.clientClose]).2.closeClientCalls = 0
    ∧ (runProxy none initialProxyState
        [.clientClose, .serverClose]).2.closeServerCalls = 1
    ∧ (runProxy none initialProxyState
        [.clientClose, .serverClose]).2.closeClientCalls = 0
    ∧ (runProxy none initialProxyState
        [.clientClose, .serverClose, .serverClose]).2.closeClientCalls = 0
    ∧ (runProxy none initialProxyState
        [.clientClose, .serverClose, .clientClose]).2.closeServerCalls = 2
    ∧ (runProxy none initialProxyState [.serverClose]).2.closeClientCalls = 1
    ∧ (runProxy none initialProxyState [.serverClose]).2.closeServerCalls = 0
    ∧ (runProxy none initialProxyState
        [.serverClose, .clientClose]).2.closeClientCalls = 1
    ∧ (runProxy none initialProxyState
        [.serverClose, .clientClose]).2.closeServerCalls = 0
    ∧ (runProxy none initialProxyState
        [.serverClose, .clientClose, .clientClose]).2.closeServerCalls = 0
    ∧ (runProxy none initialProxyState
        [.serverClose, .clientClose, .serverClose]).2.closeClientCalls = 2 :=
  ⟨rfl, rfl, rfl, rfl, rfl, rfl, rfl, rfl, rfl, rfl, rfl, rfl⟩

/-- C3: message events (whatever the send outcome) and onerror events invoke
no close() on either transport and leave both closed flags unchanged; any
event whose handler does invoke a close() is one of the two onclose
events. -/
theorem C3_errors_never_close (sid : Option String) (s : ProxyState)
    (m : JSONRPCMessage) (r : Option TransportError) (e : TransportError)
    (ev : ProxyEvent) :
    closeCalls (proxyStep sid s (.clientMessage m r)).2 = 0
    ∧ closedFlags (proxyStep sid s (.clientMessage m r)).1 = closedFlags s
    ∧ closeCalls (proxyStep sid s (.serverMessage m r)).2 = 0
    ∧ closedFlags (proxyStep sid s (.serverMessage m r)).1 = closedFlags s
    ∧ closeCalls (proxyStep sid s (.clientError e)).2 = 0
    ∧ closedFlags (proxyStep sid s (.clientError e)).1 = closedFlags s
    ∧ closeCalls (proxyStep sid s (.serverError e)).2 = 0
    ∧ closedFlags (proxyStep sid s (.serverError e)).1 = closedFlags s
    ∧ (closeCalls (proxyStep sid s ev).2 = 0
        ∨ ev = .clientClose ∨ ev = .serverClose) := by
  refine ⟨?_, ?_, ?_, ?_, rfl, rfl, rfl, rfl, ?_⟩
  · cases r
    · rfl
    · cases hb : isJSONRPCRequest m && !s.transportToClientClosed <;>
        simp [proxyStep, hb, closeCalls, ProxyEffects.none]
  · cases r
    · rfl
    · cases hb : isJSONRPCRequest m && !s.transportToClientClosed <;>
        simp [proxyStep, hb, closedFlags, ProxyEffects.none]
  · cases r <;> rfl
  · cases r <;> rfl
  · cases ev with
    | clientMessage m r =>
      cases r
      · exact Or.inl rfl
      · refine Or.inl ?_
        cases hb : isJSONRPCRequest m && !s.transportToClientClosed <;>
          simp [proxyStep, hb, closeCalls, ProxyEffects.none]
    | serverMessage m r => cases r <;> exact Or.inl rfl
    | clientClose => exact Or.inr (Or.inl rfl)
    | serverClose => exact Or.inr (Or.inr rfl)
    | clientError e => exact Or.inl rfl
    | serverError e => exact Or.inl rfl

/-- C4: an envelope delivered by onmessage whose forwarding send does not
fail is passed to the paired transport's send exactly once and unchanged,
in both directions, and nothing is sent anywhere else. -/
theorem C4_forward_unchanged (sid : Option String) (s : ProxyState)
    (m : JSONRPCMessage) :
    (proxyStep sid s (.clientMessage m none)).2.sendsToServer = [m]
    ∧ (proxyStep sid s (.clientMessage m none)).2.sendsToClient = []
    ∧ (proxyStep sid s (.serverMessage m none)).2.sendsToClient = [m]
    ∧ (proxyStep sid s (.serverMessage m none)).2.sendsToServer = [] :=
  ⟨rfl, rfl, rfl, rfl⟩

/-!
Debug logger (debug-logger.ts, class DebugLogger).  The file system is
modeled by passing the outcome of each underlying primitive (open, write,
sync, close) into the operation as an Except value; the operation's own
result type Except String records what its caller observes, so an error
value in the result would mean an exception escaping to the relay.
Timestamps and the process id are opaque to every claim and are omitted
from the modeled record.
-/

/-- One JSONL record of the debug log: the role and direction tags and the
optional message/error payloads of a DebugLogEntry. -/
structure LogEntry where
  role : String
  direction : String
  message : Option JSONRPCMessage
  error : Option String

/-- The mutable state of one DebugLogger instance: the nullable file
handle and the fixed role tag. -/
structure DebugLoggerState where
  logFileHandle : Option Unit
  role : String

/-- A freshly constructed DebugLogger: the handle starts null. -/
def newDebugLogger (role : String) : DebugLoggerState :=
  { logFileHandle := none, role := role }

/-- Embeds DebugLogger.initialize: mkdir and open are attempted inside a
try whose catch reports to console.error and continues without logging, so
on failure the handle keeps its previous (null) value.  openResult is the
combined outcome of the mkdir and open calls. -/
def DebugLoggerState.initLogFile (s : DebugLoggerState)
    (openResult : Except String Unit) : DebugLoggerState :=
  match openResult with
  | .ok _ => { s with logFileHandle := some () }
  | .error _ => s

/-- A message record as built by logMessage. -/
def messageEntry (role direction : String) (m : JSONRPCMessage) : LogEntry :=
  { role := role, direction := direction, message := some m, error := none }

/-- An error record as built by logError. -/
def errorEntry (role : String) (e : TransportError) : LogEntry :=
  { role := role, direction := "error", message := none, error := some e.message }

/-- A close record as built by logClose. -/
def closeEntry (role : String) : LogEntry :=
  { role := role, direction := "close", message := none, error := none }

/-- Embeds DebugLogger.logMessage: early return when the handle is null;
otherwise write the record and sync, the whole body inside a try whose
catch reports to console.error and swallows.  A sync failure occurs after
the line was written, so the record still lands in the file. -/
def DebugLoggerState.logMessage (s : DebugLoggerState)
    (writeResult syncResult : Except String Unit)
    (direction : String) (m : JSONRPCMessage) :
    Except String (DebugLoggerState × List LogEntry) :=
  match s.logFileHandle with
  | none => .ok (s, [])
  | some _ =>
    match writeResult with
    | .error _ => .ok (s, [])
    | .ok _ =>
      match syncResult with
      | .error _ => .ok (s, [messageEntry s.role direction m])
      | .ok _ => .ok (s, [messageEntry s.role direction m])

/-- Embeds DebugLogger.logError: early return when the handle is null;
otherwise write the record, the try's catch ignoring any failure. -/
def DebugLoggerState.logError (s : DebugLoggerState)
    (writeResult : Except String Unit) (e : TransportError) :
    Except String (DebugLoggerState × List LogEntry) :=
  match s.logFileHandle with
  | none => .ok (s, [])
  | some _ =>
    match writeResult with
    | .error _ => .ok (s, [])
    | .ok _ => .ok (s, [errorEntry s.role e])

/-- Embeds DebugLogger.logClose: early return when the handle is null;
otherwise write the close record, close the handle and null it, the try's
catch ignoring any failure — so a failed write leaves the handle open, and
a failed close leaves the handle non-null (the null assignment follows the
close inside the try). -/
def DebugLoggerState.logClose (s : DebugLoggerState)
    (writeResult closeResult : Except String Unit) :
    Except String (DebugLoggerState × List LogEntry) :=
  match s.logFileHandle with
  | none => .ok (s, [])
  | some _ =>
    match writeResult with
    | .error _ => .ok (s, [])
    | .ok _ =>
      match closeResult with
      | .error _ => .ok (s, [closeEntry s.role])
      | .ok _ => .ok ({ s with logFileHandle := none }, [closeEntry s.role])

/-- One call to a DebugLogger method together with the outcomes of the
file-system primitives it performs. -/
inductive LogOp
  | logMsg (writeResult syncResult : Except String Unit)
      (direction : String) (m : JSONRPCMessage)
  | logErr (writeResult : Except String Unit) (e : TransportError)
  | logCls (writeResult closeResult : Except String Unit)

/-- Runs one log call and extracts its state and appended records.  The
error fallback is unreachable: the three methods never return an error
(their try blocks catch everything), as the C6 development proves. -/
def applyLogOp (s : DebugLoggerState) : LogOp → DebugLoggerState × List LogEntry
  | .logMsg w y d m =>
    match s.logMessage w y d m with
    | .ok p => p
    | .error _ => (s, [])
  | .logErr w e =>
    match s.logError w e with
    | .ok p => p
    | .error _ => (s, [])
  | .logCls w c =>
    match s.logClose w c with
    | .ok p => p
    | .error _ => (s, [])

/-- Runs a sequence of log calls, concatenating the appended records. -/
def runLogOps (s : DebugLoggerState) : List LogOp → DebugLoggerState × List LogEntry
  | [] => (s, [])
  | op :: rest =>
    let r1 := applyLogOp s op
    let r2 := runLogOps r1.1 rest
    (r2.1, r1.2 ++ r2.2)

lemma applyLogOp_noHandle (role : String) (op : LogOp) :
    applyLogOp (newDebugLogger role) op = (newDebugLogger role, []) := by
  cases op <;> rfl

lemma runLogOps_noHandle (role : String) (ops : List LogOp) :
    runLogOps (newDebugLogger role) ops = (newDebugLogger role, []) := by
  induction ops with
  | nil => rfl
  | cons op rest ih => simp [runLogOps, applyLogOp_noHandle, ih]

/-- C6: a failed initialization leaves the handle null; with a null handle
every logMessage, logError and logClose call appends nothing and leaves the
state unchanged; and for every state and every outcome of the underlying
file-system primitives, each of the three log methods returns normally — no
logging failure ever escapes to the caller. -/
theorem C6_logging_failures_swallowed (role failMsg d : String)
    (m : JSONRPCMessage) (e : TransportError)
    (w y c : Except String Unit) (s : DebugLoggerState) :
    (newDebugLogger role).initLogFile (.error failMsg) = newDebugLogger role
    ∧ (newDebugLogger role).logMessage w y d m = .ok (newDebugLogger role, [])
    ∧ (newDebugLogger role).logError w e = .ok (newDebugLogger role, [])
    ∧ (newDebugLogger role).logClose w c = .ok (newDebugLogger role, [])
    ∧ (∃ p, s.logMessage w y d m = .ok p)
    ∧ (∃ p, s.logError w e = .ok p)
    ∧ (∃ p, s.logClose w c = .ok p) := by
  refine ⟨rfl, rfl, rfl, rfl, ?_, ?_, ?_⟩
  · cases hs : s.logFileHandle <;> cases w <;> cases y <;>
      simp [DebugLoggerState.logMessage, hs]
  · cases hs : s.logFileHandle <;> cases w <;>
      simp [DebugLoggerState.logError, hs]
  · cases hs : s.logFileHandle <;> cases w <;> cases c <;>
      simp [DebugLoggerState.logClose, hs]

/-- C10: from the state reached by a successful initialization, a fully
successful logClose appends exactly one close record and nulls the handle,
and from that closed state every further sequence of logMessage, logError
and logClose calls — whatever the outcomes of their primitives — appends
nothing and leaves the state closed. -/
theorem C10_logClose_terminal (role : String) (ops : List LogOp) :
    ((newDebugLogger role).initLogFile (.ok ())).logClose (.ok ()) (.ok ()) =
      .ok (newDebugLogger role, [closeEntry role])
    ∧ runLogOps (newDebugLogger role) ops = (newDebugLogger role, []) :=
  ⟨rfl, runLogOps_noHandle role ops⟩

/-!
Server-side logging decorator (part_004, class DebugTransportWrapper).
Its onmessage/onerror/onclose setters store the caller's callback only in
the private fields _onmessage/_onerror/_onclose; start() then snapshots the
INNER transport's current callback slots and replaces each by a closure
that writes a log record and invokes the snapshot.  Caller callbacks are
tracked by numeric labels; a callback slot of the inner transport holds
either nothing (a fresh transport) or one of start()'s logging closures,
since no code path ever writes anything else into it.
-/

/-- Contents of one callback slot of the inner (wrapped) transport. -/
inductive InnerSlot
  | empty
  | logWrapped (previous : InnerSlot)

/-- What happens when the inner transport fires an event into a slot: the
number of log records written and the caller callbacks invoked, in order.
A logging closure writes one record and then invokes the snapshot it
captured, if that snapshot was defined. -/
def InnerSlot.fire : InnerSlot → Nat × List Nat
  | .empty => (0, [])
  | .logWrapped previous =>
    let rest := previous.fire
    (rest.1 + 1, rest.2)

/-- The callback-relevant state of one part_004 DebugTransportWrapper: the
three stored private fields and the three slots of the inner transport. -/
structure WrapperState where
  storedOnMessage : Option Nat
  storedOnError : Option Nat
  storedOnClose : Option Nat
  innerOnMessage : InnerSlot
  innerOnError : InnerSlot
  innerOnClose : InnerSlot

/-- A freshly wrapped fresh transport: nothing stored, all slots empty. -/
def freshWrapper : WrapperState :=
  { storedOnMessage := none
    storedOnError := none
    storedOnClose := none
    innerOnMessage := .empty
    innerOnError := .empty
    innerOnClose := .empty }

/-- The onmessage setter of part_004: it only records the callback in the
private field _onmessage ("We'll handle this in start() to wrap it"). -/
def setWrapperOnMessage (s : WrapperState) (cb : Nat) : WrapperState :=
  { s with storedOnMessage := some cb }

/-- The onerror setter of part_004: records into _onerror only. -/
def setWrapperOnError (s : WrapperState) (cb : Nat) : WrapperState :=
  { s with storedOnError := some cb }

/-- The onclose setter of part_004: records into _onclose only. -/
def setWrapperOnClose (s : WrapperState) (cb : Nat) : WrapperState :=
  { s with storedOnClose := some cb }

/-- start() of part_004: snapshots the inner transport's current callbacks
(originalOnMessage and friends) and replaces each inner slot by a logging
closure invoking that snapshot.  The stored private fields are not read. -/
def startWrapper (s : WrapperState) : WrapperState :=
  { s with
      innerOnMessage := .logWrapped s.innerOnMessage
      innerOnError := .logWrapped s.innerOnError
      innerOnClose := .logWrapped s.innerOnClose }

/-- C5 (code bug): assign a message, an error and a close callback to the
decorator, then start it, then let the inner transport fire one event of
each kind.  Each event writes exactly one log record, but none of the
assigned callbacks is ever invoked — start() wrapped the inner transport's
previously empty slots instead of the callbacks stored by the setters, so
the decorator is not transparent: it swallows every event instead of
delegating it.  The claim (and the parallel CLI implementation in
cli/src/transport.ts, whose setters do install the callback on the inner
transport) requires the most recently assigned callback to be invoked. -/
theorem C5_wrapper_never_invokes_callbacks (mcb ecb ccb : Nat) :
    (startWrapper (setWrapperOnClose (setWrapperOnError
        (setWrapperOnMessage freshWrapper mcb) ecb) ccb)).storedOnMessage
      = some mcb
    ∧ (startWrapper (setWrapperOnClose (setWrapperOnError
        (setWrapperOnMessage freshWrapper mcb) ecb) ccb)).innerOnMessage.fire
      = (1, [])
    ∧ (startWrapper (setWrapperOnClose (setWrapperOnError
        (setWrapperOnMessage freshWrapper mcb) ecb) ccb)).innerOnError.fire
      = (1, [])
    ∧ (startWrapper (setWrapperOnClose (setWrapperOnError
        (setWrapperOnMessage freshWrapper mcb) ecb) ccb)).innerOnClose.fire
      = (1, []) :=
  ⟨rfl, rfl, rfl, rfl⟩

/-!
Transport factory (cli/src/transport.ts).  External collaborators are
modeled as parameters:

* parsedUrl is the outcome of the WHATWG constructor applied to
  options.url ?? "" — none when the constructor throws (message
  "Invalid URL"), some u when it parses;
* findExec models spawn-rx's findActualExecutable, a total function: it
  resolves the executable through file-system lookups, catches its own
  read errors, and falls back to returning its input — it never throws,
  and the StdioClientTransport constructor merely records its parameters
  (the process is spawned later, in start());
* debugBasePath models the MCP_TRANSPORT_DEBUG_FILE environment variable.

JavaScript objects (Record of string to string) are modeled as
association lists in insertion order; recordSet is one JS property
assignment: overwrite in place when the key exists, append otherwise.
-/

/-- The TransportOptions input of the factory.  transportType is kept as a
raw string so that the unsupported-type branch of createTransport stays
representable. -/
structure TransportOptions where
  transportType : String
  command : Option String
  args : Option (List String)
  url : Option String

/-- A parsed WHATWG URL, by components. -/
structure URLModel where
  scheme : String
  host : String
  port : Option Nat
  pathname : String
  query : Option String
  fragment : Option String
deriving DecidableEq, Repr

/-- The WHATWG constructor applied to an absolute-path reference and a
base: origin kept, path replaced, query and fragment cleared. -/
def resolvePathAgainst (path : String) (base : URLModel) : URLModel :=
  { scheme := base.scheme
    host := base.host
    port := base.port
    pathname := path
    query := none
    fragment := none }

/-- The sseUrl computation of createSSETransport: the base URL itself when
its pathname already ends with "/sse", otherwise "/sse" resolved against
the base. -/
def sseTargetUrl (baseUrl : URLModel) : URLModel :=
  if baseUrl.pathname.endsWith "/sse" then baseUrl
  else resolvePathAgainst "/sse" baseUrl

/-- The mcpUrl computation of createHTTPTransport, with "/mcp". -/
def mcpTargetUrl (baseUrl : URLModel) : URLModel :=
  if baseUrl.pathname.endsWith "/mcp" then baseUrl
  else resolvePathAgainst "/mcp" baseUrl

/-- A constructed transport: the three SDK client transports with their
recorded constructor arguments, and the debug-logging wrapper. -/
inductive TransportModel
  | sseClient (url : URLModel)
  | httpClient (url : URLModel)
  | stdioClient (command : String) (args : List String)
      (env : List (String × String)) (stderrMode : String)
  | debugWrapped (inner : TransportModel)

/-- The kind of a constructed transport, looking through the wrapper. -/
def transportKind : TransportModel → String
  | .sseClient _ => "sse"
  | .httpClient _ => "http"
  | .stdioClient _ _ _ _ => "stdio"
  | .debugWrapped inner => transportKind inner

/-- Embeds createSSETransport: parse the URL (a throw becomes the error)
and construct the SSE client on the normalized URL. -/
def createSSETransport (parsedUrl : Option URLModel) : Except String TransportModel :=
  match parsedUrl with
  | none => .error "Invalid URL"
  | some baseUrl => .ok (.sseClient (sseTargetUrl baseUrl))

/-- Embeds createHTTPTransport, symmetric with "/mcp". -/
def createHTTPTransport (parsedUrl : Option URLModel) : Except String TransportModel :=
  match parsedUrl with
  | none => .error "Invalid URL"
  | some baseUrl => .ok (.httpClient (mcpTargetUrl baseUrl))

/-- One JavaScript property assignment on an object: overwrite the entry
in place when the key exists (keys of a JS object are unique), append a
new entry otherwise. -/
def recordSet : List (String × String) → String → String → List (String × String)
  | [], k, v => [(k, v)]
  | p :: rest, k, v =>
    if p.1 = k then (k, v) :: rest else p :: recordSet rest k v

/-- The processEnv loop of createStdioTransport: copy every entry of
process.env whose value is defined, in order. -/
def definedEnv (procEnv : List (String × Option String)) : List (String × String) :=
  procEnv.foldl (fun acc kv =>
    match kv.2 with
    | some v => recordSet acc kv.1 v
    | none => acc) []

/-- The spread expression assembling env: processEnv's entries and then
defaultEnv's entries assigned into a fresh object, later assignments
overwriting earlier ones. -/
def mergedEnv (procEnv : List (String × Option String))
    (defaultEnv : List (String × String)) : List (String × String) :=
  defaultEnv.foldl (fun acc kv => recordSet acc kv.1 kv.2) (definedEnv procEnv)

/-- Embeds createStdioTransport: default the args to [], build the merged
environment, resolve the command (options.command ?? "") through findExec,
and record everything in a StdioClientTransport with piped stderr. -/
def createStdioTransport
    (findExec : String → List String → String × List String)
    (procEnv : List (String × Option String))
    (defaultEnv : List (String × String))
    (options : TransportOptions) : Except String TransportModel :=
  let args := match options.args with | some a => a | none => []
  let resolved := findExec (options.command.getD "") args
  .ok (.stdioClient resolved.1 resolved.2 (mergedEnv procEnv defaultEnv) "pipe")

/-- The tail of createTransport's try/catch: a failure is rethrown as
"Failed to create transport: " followed by the underlying message, and a
constructed transport is wrapped with debug logging when the debug base
path is configured. -/
def wrapCreation (debugBasePath : Option String)
    (r : Except String TransportModel) : Except String TransportModel :=
  match r with
  | .error msg => .error ("Failed to create transport: " ++ msg)
  | .ok t =>
    match debugBasePath with
    | some _ => .ok (.debugWrapped t)
    | none => .ok t

/-- Embeds createTransport: dispatch on the transport type to the matching
constructor — once, with no retry — then apply the catch wrapping and the
optional debug wrapping. -/
def createTransport
    (findExec : String → List String → String × List String)
    (procEnv : List (String × Option String))
    (defaultEnv : List (String × String))
    (parsedUrl : Option URLModel) (debugBasePath : Option String)
    (options : TransportOptions) : Except String TransportModel :=
  wrapCreation debugBasePath
    (if options.transportType = "stdio" then
      createStdioTransport findExec procEnv defaultEnv options
    else if options.transportType = "sse" then
      createSSETransport parsedUrl
    else if options.transportType = "http" then
      createHTTPTransport parsedUrl
    else
      .error ("Unsupported transport type: " ++ options.transportType))

/-- C8: createSSETransport keeps a URL whose pathname already ends with
"/sse" unchanged in every component, and otherwise keeps scheme, host and
port while replacing the pathname with "/sse" and clearing query and
fragment; createHTTPTransport does the same with "/mcp". -/
theorem C8_url_normalization (base : URLModel) :
    createSSETransport (some base) = .ok (.sseClient (sseTargetUrl base))
    ∧ (sseTargetUrl base).scheme = base.scheme
    ∧ (sseTargetUrl base).host = base.host
    ∧ (sseTargetUrl base).port = base.port
    ∧ (sseTargetUrl base).pathname =
        (if base.pathname.endsWith "/sse" then base.pathname else "/sse")
    ∧ (sseTargetUrl base).query =
        (if base.pathname.endsWith "/sse" then base.query else none)
    ∧ (sseTargetUrl base).fragment =
        (if base.pathname.endsWith "/sse" then base.fragment else none)
    ∧ createHTTPTransport (some base) = .ok (.httpClient (mcpTargetUrl base))
    ∧ (mcpTargetUrl base).scheme = base.scheme
    ∧ (mcpTargetUrl base).host = base.host
    ∧ (mcpTargetUrl base).port = base.port
    ∧ (mcpTargetUrl base).pathname =
        (if base.pathname.endsWith "/mcp" then base.pathname else "/mcp")
    ∧ (mcpTargetUrl base).query =
        (if base.pathname.endsWith "/mcp" then base.query else none)
    ∧ (mcpTargetUrl base).fragment =
        (if base.pathname.endsWith "/mcp" then base.fragment else none) := by
  refine ⟨rfl, ?_, ?_, ?_, ?_, ?_, ?_, rfl, ?_, ?_, ?_, ?_, ?_, ?_⟩ <;>
    first
      | (cases hb : base.pathname.endsWith "/sse" <;>
          simp [sseTargetUrl, resolvePathAgainst, hb])
      | (cases hb : base.pathname.endsWith "/mcp" <;>
          simp [mcpTargetUrl, resolvePathAgainst, hb])


/-- Reading a property of a JS object modeled as an association list with
unique keys: the first entry for the key. -/
def recordGet : List (String × String) → String → Option String
  | [], _ => none
  | p :: rest, k => if p.1 = k then some p.2 else recordGet rest k

lemma recordGet_recordSet (m : List (String × String)) (k v k' : String) :
    recordGet (recordSet m k v) k' =
      if k = k' then some v else recordGet m k' := by
  induction m with
  | nil => simp [recordSet, recordGet]
  | cons p rest ih =>
    obtain ⟨pk, pv⟩ := p
    by_cases hp : pk = k
    · subst hp
      by_cases hk : pk = k' <;> simp [recordSet, recordGet, hk]
    · by_cases hpk : pk = k'
      · subst hpk
        have hkk : ¬ k = pk := fun he => hp he.symm
        simp [recordSet, recordGet, hp, hkk]
      · simp [recordSet, recordGet, hp, hpk, ih]

/-- The value a sequence of JS assignments leaves under key k: the last
entry for k wins. -/
def lastAssign : List (String × String) → String → Option String
  | [], _ => none
  | kv :: rest, k =>
    match lastAssign rest k with
    | some v => some v
    | none => if kv.1 = k then some kv.2 else none

lemma recordGet_foldl_recordSet (l : List (String × String))
    (base : List (String × String)) (k : String) :
    recordGet (l.foldl (fun acc kv => recordSet acc kv.1 kv.2) base) k =
      (match lastAssign l k with
       | some v => some v
       | none => recordGet base k) := by
  induction l generalizing base with
  | nil => rfl
  | cons kv rest ih =>
    obtain ⟨k1, v1⟩ := kv
    simp only [List.foldl_cons]
    rw [ih]
    cases hl : lastAssign rest k
    · by_cases hk : k1 = k <;> simp [lastAssign, hl, recordGet_recordSet, hk]
    · simp [lastAssign, hl]

/-- The defined entries of process.env, as key/value pairs in order. -/
def definedEntries (procEnv : List (String × Option String)) : List (String × String) :=
  procEnv.filterMap (fun kv => kv.2.map (fun v => (kv.1, v)))

lemma definedEnv_foldl (procEnv : List (String × Option String))
    (base : List (String × String)) :
    procEnv.foldl (fun acc kv =>
        match kv.2 with
        | some v => recordSet acc kv.1 v
        | none => acc) base
      = (definedEntries procEnv).foldl
          (fun acc kv => recordSet acc kv.1 kv.2) base := by
  induction procEnv generalizing base with
  | nil => rfl
  | cons kv rest ih =>
    obtain ⟨k1, v1⟩ := kv
    cases v1 <;> simp [definedEntries, List.filterMap_cons, ih]

/-- C9: in createStdioTransport the environment handed to the spawned
process resolves every key to the default environment's value when the
default environment assigns one — the defaults take precedence over the
inherited entry — and to the inherited process value otherwise; and the
inherited part is exactly the entries of the whole process environment
whose value is defined, not any smaller subset. -/
theorem C9_stdio_env_merge (procEnv : List (String × Option String))
    (defaults : List (String × String)) (k : String) :
    recordGet (mergedEnv procEnv defaults) k =
      (match lastAssign defaults k with
       | some v => some v
       | none => recordGet (definedEnv procEnv) k)
    ∧ recordGet (definedEnv procEnv) k = lastAssign (definedEntries procEnv) k := by
  constructor
  · exact recordGet_foldl_recordSet defaults (definedEnv procEnv) k
  · have h : definedEnv procEnv
        = (definedEntries procEnv).foldl
            (fun acc kv => recordSet acc kv.1 kv.2) [] :=
      definedEnv_foldl procEnv []
    rw [h, recordGet_foldl_recordSet]
    cases lastAssign (definedEntries procEnv) k <;> simp [recordGet]

lemma createTransport_dispatch
    (findExec : String → List String → String × List String)
    (procEnv : List (String × Option String))
    (defaultEnv : List (String × String))
    (parsedUrl : Option URLModel) (debugBasePath : Option String)
    (options : TransportOptions) :
    (options.transportType = "stdio" →
      createTransport findExec procEnv defaultEnv parsedUrl debugBasePath options
        = wrapCreation debugBasePath
            (createStdioTransport findExec procEnv defaultEnv options))
    ∧ (options.transportType = "sse" →
      createTransport findExec procEnv defaultEnv parsedUrl debugBasePath options
        = wrapCreation debugBasePath (createSSETransport parsedUrl))
    ∧ (options.transportType = "http" →
      createTransport findExec procEnv defaultEnv parsedUrl debugBasePath options
        = wrapCreation debugBasePath (createHTTPTransport parsedUrl))
    ∧ (options.transportType ≠ "stdio" → options.transportType ≠ "sse" →
       options.transportType ≠ "http" →
      createTransport findExec procEnv defaultEnv parsedUrl debugBasePath options
        = wrapCreation debugBasePath
            (.error ("Unsupported transport type: " ++ options.transportType))) := by
  refine ⟨?_, ?_, ?_, ?_⟩
  · intro ht
    simp [createTransport, ht]
  · intro ht
    simp [createTransport, ht]
  · intro ht
    simp [createTransport, ht]
  · intro h1 h2 h3
    simp [createTransport, h1, h2, h3]

/-- The factory input of the C7 counterexample: a stdio request with no
command at all. -/
def stdioNoCommandOptions : TransportOptions :=
  { transportType := "stdio", command := none, args := none, url := none }

/-- spawn-rx resolution in the fallback case: the input is returned
unchanged (used to evaluate the model at concrete inputs). -/
def findExecFallback (cmd : String) (args : List String) : String × List String :=
  (cmd, args)

/-- C7 (counterexample): the claim says createTransport raises whenever
the command is missing.  With no command at all, createStdioTransport
substitutes the empty string (options.command ?? ""), findActualExecutable
does not throw, and the StdioClientTransport constructor only records its
parameters — so the factory returns a constructed transport instead of
raising; a spawn failure would surface only at start(). -/
theorem C7_counterexample :
    createTransport findExecFallback [] [] none none stdioNoCommandOptions =
      .ok (.stdioClient "" [] [] "pipe") := rfl

/-- C7 (amended): createTransport raises a transport-creation error
prefixed "Failed to create transport: " and carrying the underlying
failure's message whenever the URL is malformed (for the sse and http
kinds) or the transport type is unsupported; it performs no retries — each
input is delegated exactly once to the single matching constructor — and
on every other input, in particular for stdio even with the command
missing, it returns a constructed transport of the requested kind. -/
theorem C7_factory_error_policy
    (findExec : String → List String → String × List String)
    (procEnv : List (String × Option String))
    (defaultEnv : List (String × String))
    (parsedUrl : Option URLModel) (debugBasePath : Option String)
    (options : TransportOptions) :
    (options.transportType = "sse" → parsedUrl = none →
      createTransport findExec procEnv defaultEnv parsedUrl debugBasePath options
        = .error "Failed to create transport: Invalid URL")
    ∧ (options.transportType = "http" → parsedUrl = none →
      createTransport findExec procEnv defaultEnv parsedUrl debugBasePath options
        = .error "Failed to create transport: Invalid URL")
    ∧ (options.transportType = "stdio" →
      ∃ t, createTransport findExec procEnv defaultEnv parsedUrl debugBasePath options
        = .ok t ∧ transportKind t = "stdio")
    ∧ (∀ u, options.transportType = "sse" → parsedUrl = some u →
      ∃ t, createTransport findExec procEnv defaultEnv parsedUrl debugBasePath options
        = .ok t ∧ transportKind t = "sse")
    ∧ (∀ u, options.transportType = "http" → parsedUrl = some u →
      ∃ t, createTransport findExec procEnv defaultEnv parsedUrl debugBasePath options
        = .ok t ∧ transportKind t = "http")
    ∧ (options.transportType ≠ "stdio" → options.transportType ≠ "sse" →
       options.transportType ≠ "http" →
      createTransport findExec procEnv defaultEnv parsedUrl debugBasePath options
        = .error ("Failed to create transport: "
            ++ ("Unsupported transport type: " ++ options.transportType)))
    ∧ (options.transportType = "stdio" →
      createTransport findExec procEnv defaultEnv parsedUrl debugBasePath options
        = wrapCreation debugBasePath
            (createStdioTransport findExec procEnv defaultEnv options))
    ∧ (options.transportType = "sse" →
      createTransport findExec procEnv defaultEnv parsedUrl debugBasePath options
        = wrapCreation debugBasePath (createSSETransport parsedUrl))
    ∧ (options.transportType = "http" →
      createTransport findExec procEnv defaultEnv parsedUrl debugBasePath options
        = wrapCreation debugBasePath (createHTTPTransport parsedUrl)) := by
  obtain ⟨hstdio, hsse, hhttp, hother⟩ :=
    createTransport_dispatch findExec procEnv defaultEnv parsedUrl debugBasePath options
  refine ⟨?_, ?_, ?_, ?_, ?_, ?_, hstdio, hsse, hhttp⟩
  · intro ht hu
    subst hu
    rw [hsse ht]
    rfl
  · intro ht hu
    subst hu
    rw [hhttp ht]
    rfl
  · intro ht
    rw [hstdio ht]
    cases debugBasePath <;> exact ⟨_, rfl, rfl⟩
  · intro u ht hu
    subst hu
    rw [hsse ht]
    cases debugBasePath <;> exact ⟨_, rfl, rfl⟩
  · intro u ht hu
    subst hu
    rw [hhttp ht]
    cases debugBasePath <;> exact ⟨_, rfl, rfl⟩
  · intro h1 h2 h3
    rw [hother h1 h2 h3]
    rfl

/-- C7 witness: the amended theorem applied at a concrete malformed-URL
input: an sse request whose URL fails to parse yields the wrapped
creation error. -/
theorem C7_factory_error_policy_witness :
    createTransport findExecFallback [] [] none none
      { transportType := "sse", command := none, args := none, url := some ":" }
      = .error "Failed to create transport: Invalid URL" :=
  (C7_factory_error_policy findExecFallback [] [] none none
    { transportType := "sse", command := none, args := none, url := some ":" }).1
    rfl rfl
